import Mathlib

/-!
Verification of the Discord webhook relay handler
(`packages/discord-webhook-relay/send/__main__.py`).

The development shallowly embeds the Python source: JSON values become an
inductive `Json` type, the process environment becomes an explicit `Env`
record, the inbound invocation dictionary becomes `Args`, and the single
outbound `requests.post` call is abstracted by an oracle `Net` function
whose calls are recorded in a trace.  Python runtime exceptions are made
explicit with `Except String`; the textual content of internal error
messages approximates CPython's wording (only the handler's own response
strings are reproduced verbatim).
-/

set_option maxRecDepth 4096

/-- JSON values.  Numbers are modelled as integers, which covers every
numeric value the handler manipulates (colors and HTTP status codes). -/
inductive Json where
  | null : Json
  | bool : Bool → Json
  | num : Int → Json
  | str : String → Json
  | arr : List Json → Json
  | obj : List (String × Json) → Json

/-- Python truthiness (`bool(x)`) restricted to JSON values. -/
def pyTruthy : Json → Bool
  | .null => false
  | .bool b => b
  | .num n => decide (n ≠ 0)
  | .str s => decide (s ≠ "")
  | .arr l => !l.isEmpty
  | .obj kvs => !kvs.isEmpty

/-- First value bound to key `k` in an association list (Python dict lookup;
insertion order is the list order). -/
def getKey? (kvs : List (String × Json)) (k : String) : Option Json :=
  match kvs with
  | [] => none
  | (k', v) :: rest => if k' = k then some v else getKey? rest k

/-- Python dict assignment `d[k] = v`: replace in place if the key exists,
otherwise append (insertion order semantics). -/
def setKey (kvs : List (String × Json)) (k : String) (v : Json) : List (String × Json) :=
  match kvs with
  | [] => [(k, v)]
  | (k', w) :: rest => if k' = k then (k, v) :: rest else (k', w) :: setKey rest k v

/-- Python `d[k] = v` on a JSON value known to the source to be a dict. -/
def setTopKey (j : Json) (k : String) (v : Json) : Json :=
  match j with
  | .obj kvs => .obj (setKey kvs k v)
  | other => other

/-- Python `d.get(k)` (default `None`); raises `AttributeError` on non-dicts. -/
def pyGet (j : Json) (k : String) : Except String Json :=
  match j with
  | .obj kvs => .ok ((getKey? kvs k).getD .null)
  | _ => .error "AttributeError: object has no attribute get"

/-- Python subscript `x[i]` for a non-negative index. -/
def pyIndex (j : Json) (i : Nat) : Except String Json :=
  match j with
  | .arr l =>
    match l.get? i with
    | some x => .ok x
    | none => .error "IndexError: list index out of range"
  | .str s =>
    match s.data.get? i with
    | some c => .ok (.str (String.mk [c]))
    | none => .error "IndexError: string index out of range"
  | _ => .error "TypeError: object is not subscriptable"

/-- Python `str.split(sep)` for a one-character separator, on the character list. -/
def splitOnChar (sep : Char) : List Char → List (List Char)
  | [] => [[]]
  | c :: cs =>
    let rest := splitOnChar sep cs
    if c = sep then [] :: rest
    else
      match rest with
      | [] => [[c]]
      | h :: t => (c :: h) :: t

/-- Python `path.split('/')` (always returns at least one piece). -/
def pySplit (s : String) : List String :=
  (splitOnChar '/' s.data).map String.mk

/-- Python `s.strip('/')`: drop `'/'` characters from both ends. -/
def pyStrip (s : String) : String :=
  String.mk (((s.data.dropWhile fun c => c = '/').reverse.dropWhile fun c => c = '/').reverse)

/-- Python `s.lower()` restricted to ASCII, which covers the configuration
strings (`"true"`, `"false"`, ...) the handler compares. -/
def pyLower (s : String) : String :=
  String.mk (s.data.map Char.toLower)

/-- Truthiness of `os.environ.get(...)` results: `None` and `""` are falsy. -/
def optStrTruthy : Option String → Bool
  | none => false
  | some s => decide (s ≠ "")

/-- A `None`-or-string value as JSON (for `json.dumps` of debug fields). -/
def jsonOfOptStr : Option String → Json
  | none => .null
  | some s => .str s

/-- The process environment read by the handler (`os.environ.get` results). -/
structure Env where
  api_key : Option String := none
  webhook_url_warning : Option String := none
  webhook_url_critical : Option String := none
  debug_mode : Option String := none
  auto_colors : Option String := none

/-- The invocation dictionary `args`: the platform path plus the body fields
the handler reads.  `content = none` models an absent key (Python `args.get`
then yields `None`, which coincides with an explicit JSON `null`);
`embeds = none` models an absent `embeds` key (`args.get("embeds", [])`
then yields `[]`). -/
structure Args where
  ow_path : Option String := none
  content : Option Json := none
  embeds : Option Json := none

/-- Source function `validate_api_key` (lines 46-58): the expected key must be a
non-empty configured string and equal the second-to-last path segment. -/
def validate_api_key (env : Env) (path : String) : Bool :=
  match env.api_key with
  | none => false
  | some expected =>
    if expected = "" then false
    else
      let path_parts := pySplit (pyStrip path)
      if path_parts.length < 2 then false
      else decide (path_parts.dropLast.getLast? = some expected)

/-- Source function `get_webhook_url` (lines 60-72): route on the last path segment. -/
def get_webhook_url (env : Env) (path : String) : Option String :=
  let path_parts := pySplit (pyStrip path)
  if path_parts.length < 2 then none
  else
    match path_parts.getLast? with
    | some t =>
      if t = "warning" then env.webhook_url_warning
      else if t = "critical" then env.webhook_url_critical
      else none
    | none => none

-- Sanity checks of the path helpers against Python string semantics.
example : pySplit "" = [""] := rfl
example : pySplit "a//b" = ["a", "", "b"] := rfl
example : pyStrip "//a/b///" = "a/b" := rfl
example : pyLower "TrUe" = "true" := rfl
example : validate_api_key { api_key := some "k" } "/k/warning" = true := rfl
example : validate_api_key { api_key := some "k" } "/warning" = false := rfl
example : get_webhook_url { webhook_url_warning := some "u" } "/k/warning" = some "u" := rfl
example : get_webhook_url { webhook_url_warning := some "u" } "/k/x" = none := rfl

/-!
## Pydantic models (source lines 9-44)

Parsed model structures keep the source's class and field names.  Parsing
follows pydantic's behaviour on the JSON-shaped values the handler builds:
required fields must be present and non-null, `Optional` fields default to
`None`, a declared default (`inline`/`tts` default `False`) applies when the
key is absent, and unknown keys are ignored except on `DiscordWebhook`,
whose `Config.extra = "forbid"` rejects them.  (Pydantic's lenient numeric
coercions are not modelled; no claim depends on them and every concrete run
in this file uses canonically typed values.)  `HttpUrl` is modelled as an
http/https-prefixed string with a non-empty host part.
-/

structure EmbedField where
  name : String
  value : String
  inline : Option Bool

structure EmbedFooter where
  text : String
  icon_url : Option String

structure EmbedImage where
  url : String

structure EmbedAuthor where
  name : String
  url : Option String
  icon_url : Option String

structure Embed where
  title : Option String
  description : Option String
  url : Option String
  color : Option Int
  fields : Option (List EmbedField)
  footer : Option EmbedFooter
  image : Option EmbedImage
  author : Option EmbedAuthor

structure DiscordWebhook where
  content : Option String
  username : Option String
  avatar_url : Option String
  tts : Option Bool
  embeds : Option (List Embed)

def strHasPrefix (p s : String) : Bool :=
  p.data.isPrefixOf s.data

/-- Test for a `pydantic.HttpUrl`-shaped string: http or https scheme and a host. -/
def isHttpUrl (s : String) : Bool :=
  (strHasPrefix "http://" s && decide (7 < s.data.length)) ||
  (strHasPrefix "https://" s && decide (8 < s.data.length))

/-- An `Optional[str]` field value. -/
def parseOptStr (j : Json) : Except String (Option String) :=
  match j with
  | .null => .ok none
  | .str s => .ok (some s)
  | _ => .error "str type expected"

/-- An `Optional[HttpUrl]` field value. -/
def parseOptUrl (j : Json) : Except String (Option String) :=
  match j with
  | .null => .ok none
  | .str s => if isHttpUrl s then .ok (some s) else .error "invalid or missing URL scheme"
  | _ => .error "url type expected"

/-- An `Optional[int]` field value. -/
def parseOptInt (j : Json) : Except String (Option Int) :=
  match j with
  | .null => .ok none
  | .num n => .ok (some n)
  | _ => .error "value is not a valid integer"

/-- An `Optional[bool]` field value. -/
def parseOptBool (j : Json) : Except String (Option Bool) :=
  match j with
  | .null => .ok none
  | .bool b => .ok (some b)
  | _ => .error "value could not be parsed to a boolean"

/-- A required `str` field. -/
def parseReqStr (kvs : List (String × Json)) (k : String) : Except String String :=
  match getKey? kvs k with
  | none => .error "field required"
  | some .null => .error "none is not an allowed value"
  | some (.str s) => .ok s
  | some _ => .error "str type expected"

def optStrField (kvs : List (String × Json)) (k : String) : Except String (Option String) :=
  match getKey? kvs k with
  | none => .ok none
  | some j => parseOptStr j

def optUrlField (kvs : List (String × Json)) (k : String) : Except String (Option String) :=
  match getKey? kvs k with
  | none => .ok none
  | some j => parseOptUrl j

def optIntField (kvs : List (String × Json)) (k : String) : Except String (Option Int) :=
  match getKey? kvs k with
  | none => .ok none
  | some j => parseOptInt j

/-- An `Optional[bool] = False` field: the default applies when absent. -/
def optBoolFieldFalse (kvs : List (String × Json)) (k : String) : Except String (Option Bool) :=
  match getKey? kvs k with
  | none => .ok (some false)
  | some j => parseOptBool j

/-- Parse an `EmbedField` (extra keys ignored: default pydantic config). -/
def parseEmbedField (j : Json) : Except String EmbedField :=
  match j with
  | .obj kvs =>
    match parseReqStr kvs "name" with
    | .error e => .error e
    | .ok n =>
      match parseReqStr kvs "value" with
      | .error e => .error e
      | .ok v =>
        match optBoolFieldFalse kvs "inline" with
        | .error e => .error e
        | .ok i => .ok ⟨n, v, i⟩
  | _ => .error "value is not a valid dict"

def parseEmbedFieldList : List Json → Except String (List EmbedField)
  | [] => .ok []
  | j :: rest =>
    match parseEmbedField j with
    | .error e => .error e
    | .ok f =>
      match parseEmbedFieldList rest with
      | .error e => .error e
      | .ok fs => .ok (f :: fs)

def parseEmbedFooter (j : Json) : Except String EmbedFooter :=
  match j with
  | .obj kvs =>
    match parseReqStr kvs "text" with
    | .error e => .error e
    | .ok t =>
      match optUrlField kvs "icon_url" with
      | .error e => .error e
      | .ok u => .ok ⟨t, u⟩
  | _ => .error "value is not a valid dict"

def parseEmbedImage (j : Json) : Except String EmbedImage :=
  match j with
  | .obj kvs =>
    match getKey? kvs "url" with
    | none => .error "field required"
    | some .null => .error "none is not an allowed value"
    | some (.str s) => if isHttpUrl s then .ok ⟨s⟩ else .error "invalid or missing URL scheme"
    | some _ => .error "url type expected"
  | _ => .error "value is not a valid dict"

def parseEmbedAuthor (j : Json) : Except String EmbedAuthor :=
  match j with
  | .obj kvs =>
    match parseReqStr kvs "name" with
    | .error e => .error e
    | .ok n =>
      match optUrlField kvs "url" with
      | .error e => .error e
      | .ok u =>
        match optUrlField kvs "icon_url" with
        | .error e => .error e
        | .ok i => .ok ⟨n, u, i⟩
  | _ => .error "value is not a valid dict"

/-- Parse an `Embed` (source lines 26-34): all fields optional, extra keys ignored
(the class declares no `Config`, so pydantic's default applies). -/
def parseEmbed (j : Json) : Except String Embed :=
  match j with
  | .obj kvs =>
    match optStrField kvs "title" with
    | .error e => .error e
    | .ok title =>
      match optStrField kvs "description" with
      | .error e => .error e
      | .ok description =>
        match optUrlField kvs "url" with
        | .error e => .error e
        | .ok url =>
          match optIntField kvs "color" with
          | .error e => .error e
          | .ok color =>
            match (match getKey? kvs "fields" with
                   | none => Except.ok none
                   | some .null => Except.ok none
                   | some (.arr l) =>
                     (match parseEmbedFieldList l with
                      | .error e => Except.error e
                      | .ok fs => Except.ok (some fs))
                   | some _ => Except.error "value is not a valid list") with
            | .error e => .error e
            | .ok fields =>
              match (match getKey? kvs "footer" with
                     | none => Except.ok none
                     | some .null => Except.ok none
                     | some f =>
                       (match parseEmbedFooter f with
                        | .error e => Except.error e
                        | .ok ft => Except.ok (some ft))) with
              | .error e => .error e
              | .ok footer =>
                match (match getKey? kvs "image" with
                       | none => Except.ok none
                       | some .null => Except.ok none
                       | some im =>
                         (match parseEmbedImage im with
                          | .error e => Except.error e
                          | .ok i => Except.ok (some i))) with
                | .error e => .error e
                | .ok image =>
                  match (match getKey? kvs "author" with
                         | none => Except.ok none
                         | some .null => Except.ok none
                         | some a =>
                           (match parseEmbedAuthor a with
                            | .error e => Except.error e
                            | .ok au => Except.ok (some au))) with
                  | .error e => .error e
                  | .ok author =>
                    .ok ⟨title, description, url, color, fields, footer, image, author⟩
  | _ => .error "value is not a valid dict"

def parseEmbedList : List Json → Except String (List Embed)
  | [] => .ok []
  | j :: rest =>
    match parseEmbed j with
    | .error e => .error e
    | .ok x =>
      match parseEmbedList rest with
      | .error e => .error e
      | .ok xs => .ok (x :: xs)

/-- Field names declared on `DiscordWebhook` (source lines 36-41). -/
def allowedTopKeys : List String :=
  ["content", "username", "avatar_url", "tts", "embeds"]

/-- Model of `DiscordWebhook(**body)` (source lines 36-44): unlike `Embed`, the model
sets `Config.extra = "forbid"`, so any key outside the declared schema is a
validation error. -/
def parseWebhook (j : Json) : Except String DiscordWebhook :=
  match j with
  | .obj kvs =>
    if kvs.all (fun kv => allowedTopKeys.contains kv.1) then
      match optStrField kvs "content" with
      | .error e => .error e
      | .ok content =>
        match optStrField kvs "username" with
        | .error e => .error e
        | .ok username =>
          match optUrlField kvs "avatar_url" with
          | .error e => .error e
          | .ok avatar_url =>
            match optBoolFieldFalse kvs "tts" with
            | .error e => .error e
            | .ok tts =>
              match (match getKey? kvs "embeds" with
                     | none => Except.ok none
                     | some .null => Except.ok none
                     | some (.arr l) =>
                       (match parseEmbedList l with
                        | .error e => Except.error e
                        | .ok es => Except.ok (some es))
                     | some _ => Except.error "value is not a valid list") with
              | .error e => .error e
              | .ok embeds => .ok ⟨content, username, avatar_url, tts, embeds⟩
    else .error "extra fields not permitted"
  | _ => .error "value is not a valid dict"

/-!
## `webhook_data.dict(exclude_none=True)` (source line 158)

Per-model dumps in declared field order; `None`-valued fields are omitted,
but non-`None` defaults (`tts = False`, `inline = False`) are kept.
-/

def optStrEntry (k : String) : Option String → List (String × Json)
  | none => []
  | some s => [(k, .str s)]

def optBoolEntry (k : String) : Option Bool → List (String × Json)
  | none => []
  | some b => [(k, .bool b)]

def optIntEntry (k : String) : Option Int → List (String × Json)
  | none => []
  | some n => [(k, .num n)]

def dumpEmbedField (f : EmbedField) : Json :=
  .obj ([("name", .str f.name), ("value", .str f.value)] ++ optBoolEntry "inline" f.inline)

def dumpEmbedFooter (f : EmbedFooter) : Json :=
  .obj ([("text", .str f.text)] ++ optStrEntry "icon_url" f.icon_url)

def dumpEmbedImage (i : EmbedImage) : Json :=
  .obj [("url", .str i.url)]

def dumpEmbedAuthor (a : EmbedAuthor) : Json :=
  .obj ([("name", .str a.name)] ++ optStrEntry "url" a.url ++ optStrEntry "icon_url" a.icon_url)

def dumpEmbed (e : Embed) : Json :=
  .obj (optStrEntry "title" e.title ++ optStrEntry "description" e.description ++
    optStrEntry "url" e.url ++ optIntEntry "color" e.color ++
    (match e.fields with
     | none => []
     | some fs => [("fields", .arr (fs.map dumpEmbedField))]) ++
    (match e.footer with
     | none => []
     | some f => [("footer", dumpEmbedFooter f)]) ++
    (match e.image with
     | none => []
     | some i => [("image", dumpEmbedImage i)]) ++
    (match e.author with
     | none => []
     | some a => [("author", dumpEmbedAuthor a)]))

def dumpWebhook (w : DiscordWebhook) : Json :=
  .obj (optStrEntry "content" w.content ++ optStrEntry "username" w.username ++
    optStrEntry "avatar_url" w.avatar_url ++ optBoolEntry "tts" w.tts ++
    (match w.embeds with
     | none => []
     | some es => [("embeds", .arr (es.map dumpEmbed))]))

/-!
## The handler `main` (source lines 74-191)

The outbound `requests.post` is an oracle `Net`; its result is either a
raised `requests.exceptions.RequestException` (which, in requests >= 2.27,
also covers a JSON-decode failure of the destination's response body) or a
completed HTTP response whose body is empty (`content` falsy) or a parsed
JSON value (`response.json()`).  `main` returns the handler's response
together with the trace of outbound POST calls actually issued; the source
has a single `requests.post` call site, and no modelled fault can be raised
after that call, so the error branch of `main` carries an empty trace.
-/

/-- Result of `requests.post(webhook_url, json=...)`. -/
inductive NetResult where
  | exn : String → NetResult
  | resp : Nat → Option Json → NetResult

/-- The network oracle: destination URL and JSON payload to result. -/
def Net : Type := String → Json → NetResult

/-- An outbound POST: destination URL and JSON payload. -/
def Post : Type := String × Json

/-- The handler's HTTP-style response `{"statusCode": ..., "body": ...}`;
the body is modelled as the JSON value passed to `json.dumps`. -/
structure Response where
  statusCode : Nat
  body : Json

/-- Model of `args.get('__ow_path', '').strip('/')` (source line 76). -/
def pathOf (args : Args) : String :=
  pyStrip (args.ow_path.getD "")

/-- Model of `path.strip('/').split('/')` (source line 77). -/
def pathParts (args : Args) : List String :=
  pySplit (pyStrip (pathOf args))

/-- The `DEBUG_MODE` flag (source line 80). -/
def debugModeOf (env : Env) : Bool :=
  pyLower (env.debug_mode.getD "false") = "true"

/-- The `AUTO_COLORS` flag, default true (source line 126). -/
def autoColorsOf (env : Env) : Bool :=
  pyLower (env.auto_colors.getD "true") = "true"

/-- The `debug_info` dict (source lines 82-89); `expected_api_key` is the
literal `None` because the source comments out the environment read. -/
def debugInfoOf (args : Args) : Json :=
  .obj [
    ("original_path", .str (pathOf args)),
    ("path_parts", .arr ((pathParts args).map Json.str)),
    ("api_key_from_path",
      if 2 ≤ (pathParts args).length then jsonOfOptStr (pathParts args).dropLast.getLast?
      else .null),
    ("webhook_type",
      if 1 ≤ (pathParts args).length then jsonOfOptStr (pathParts args).getLast?
      else .null),
    ("expected_api_key", .null),
    ("webhook_url", .null)]

/-- Model of `path.split('/')[-1] if len(path.split('/')) > 1 else ''`
(source line 123, with `path` the stripped original path). -/
def selectorOf (args : Args) : String :=
  if 1 < (pySplit (pathOf args)).length then (pySplit (pathOf args)).getLastD ""
  else ""

/-- Model of `body['embeds'][0]['color'] = c` (source line 128), with Python's
exceptions on ill-typed bodies made explicit. -/
def setFirstEmbedColor (body : Json) (c : Int) : Except String Json :=
  match body with
  | .obj kvs =>
    match getKey? kvs "embeds" with
    | none => .error "KeyError: embeds"
    | some embeds =>
      match embeds with
      | .arr [] => .error "IndexError: list index out of range"
      | .arr (e0 :: rest) =>
        match e0 with
        | .obj ekvs =>
          .ok (.obj (setKey kvs "embeds" (.arr (.obj (setKey ekvs "color" (.num c)) :: rest))))
        | _ => .error "TypeError: object does not support item assignment"
      | _ => .error "TypeError: object is not subscriptable"
  | _ => .error "TypeError: object does not support item assignment"

/-- Lines 113-128: assemble `body` from `args`, default an absent or falsy
embeds value to `[{}]`, and apply auto-coloring. -/
def buildBody (autoColors : Bool) (selector : String) (args : Args) : Except String Json :=
  let body0 : Json := .obj [
    ("content", args.content.getD .null),
    ("embeds", args.embeds.getD (.arr []))]
  let body1 :=
    match body0 with
    | .obj kvs =>
      if pyTruthy ((getKey? kvs "embeds").getD .null) then body0
      else .obj (setKey kvs "embeds" (.arr [.obj []]))
    | other => other
  if autoColors then
    setFirstEmbedColor body1 (if selector = "warning" then 16776960 else 16711680)
  else .ok body1

/-- Model of `body['embeds'][0]` as read by the content-presence check. -/
def firstEmbedOf (body : Json) : Except String Json :=
  match body with
  | .obj kvs =>
    match getKey? kvs "embeds" with
    | none => .error "KeyError: embeds"
    | some embeds => pyIndex embeds 0
  | _ => .error "TypeError: object is not subscriptable"

/-- Lines 131-135: `any([... .get('title'), ... .get('description'),
... .get('fields')])` on the first embed. -/
def firstEmbedHasContent (body : Json) : Except String Bool :=
  match firstEmbedOf body with
  | .error e => .error e
  | .ok e0 =>
    match pyGet e0 "title" with
    | .error e => .error e
    | .ok t =>
      match pyGet e0 "description" with
      | .error e => .error e
      | .ok d =>
        match pyGet e0 "fields" with
        | .error e => .error e
        | .ok f => .ok (pyTruthy t || pyTruthy d || pyTruthy f)

/-- The body of the outer `try` (source lines 75-185).  Failure branches of
the source `return` early; here they appear as the `else` arms.  The
source's `response.ok` is `status_code < 400`, and the subsequent
`raise_for_status()` can only raise for status >= 400, i.e. never on the
path that reaches it. -/
def mainBody (env : Env) (net : Net) (args : Args) : Except String (Response × List Post) :=
  if validate_api_key env (pathOf args) then
    let webhookUrl := get_webhook_url env (pathOf args)
    let debugInfo2 := setTopKey (debugInfoOf args) "webhook_url" (jsonOfOptStr webhookUrl)
    if optStrTruthy webhookUrl then
      let url := webhookUrl.getD ""
      match buildBody (autoColorsOf env) (selectorOf args) args with
      | .error e => .error e
      | .ok body2 =>
        match firstEmbedHasContent body2 with
        | .error e => .error e
        | .ok hasContent =>
          if hasContent then
            match parseWebhook body2 with
            | .error e =>
              .ok (⟨400, .obj [("error", .str ("Validation error: " ++ e))]⟩, [])
            | .ok w =>
              let payload := dumpWebhook w
              match net url payload with
              | .exn m =>
                .ok (⟨500, .obj [("error", .str ("Error sending webhook: " ++ m))]⟩,
                  [(url, payload)])
              | .resp status content =>
                if status < 400 then
                  .ok (⟨200, .obj [
                    ("message", .str ("Webhook successfully sent (" ++ selectorOf args ++ ")")),
                    ("level", .str (selectorOf args))]⟩, [(url, payload)])
                else
                  .ok (⟨status, .obj [
                    ("error", .str ("Discord returned an error: " ++ toString status)),
                    ("details", (match content with
                                 | none => Json.str "No error details"
                                 | some j => j))]⟩, [(url, payload)])
          else
            .ok (⟨400, .obj [("error",
              .str "Embed must contain at least one of the fields: title, description or fields")]⟩,
              [])
    else
      .ok (⟨400, .obj [
        ("error", .str "Invalid webhook path"),
        ("debug", if debugModeOf env then debugInfo2 else .null)]⟩, [])
  else
    .ok (⟨401, .obj [
      ("error", .str "Invalid or missing API key"),
      ("debug", if debugModeOf env then debugInfoOf args else .null)]⟩, [])

namespace Relay

/-- Source function `main` (lines 74-191): the outer `try`/`except` converts any
escaped fault into the 500 catch-all response. -/
def main (env : Env) (net : Net) (args : Args) : Response × List Post :=
  match mainBody env net args with
  | .ok r => r
  | .error e => (⟨500, .obj [("error", .str ("Internal server error: " ++ e))]⟩, [])

end Relay

/-- The `error` field of a response body. -/
def errorOf (r : Response) : Option Json :=
  match r.body with
  | .obj kvs => getKey? kvs "error"
  | _ => none

/-- The `debug` field of a response body. -/
def debugOf (r : Response) : Option Json :=
  match r.body with
  | .obj kvs => getKey? kvs "debug"
  | _ => none

/-- The color stored on the first embed of an assembled body. -/
def firstEmbedColor (body : Json) : Option Json :=
  match firstEmbedOf body with
  | .ok (.obj kvs) => getKey? kvs "color"
  | _ => none

/-!
## Helper lemmas
-/

theorem getKey?_setKey_self (kvs : List (String × Json)) (k : String) (v : Json) :
    getKey? (setKey kvs k v) k = some v := by
  induction kvs with
  | nil => simp [setKey, getKey?]
  | cons kv rest ih =>
    obtain ⟨k', w⟩ := kv
    by_cases h : k' = k
    · simp [setKey, getKey?, h]
    · simp [setKey, getKey?, h, ih]

theorem validate_api_key_length {env : Env} {path : String}
    (h : validate_api_key env path = true) :
    2 ≤ (pySplit (pyStrip path)).length := by
  unfold validate_api_key at h
  cases henv : env.api_key with
  | none => rw [henv] at h; exact absurd h (by simp)
  | some k =>
    rw [henv] at h
    dsimp only at h
    by_cases hk : k = ""
    · simp [hk] at h
    · rw [if_neg hk] at h
      by_cases hlen : (pySplit (pyStrip path)).length < 2
      · rw [if_pos hlen] at h; exact absurd h (by simp)
      · omega

/-!
## Concrete fixtures used by witnesses and counterexamples
-/

/-- A configuration with a key and a warning destination. -/
def envOk : Env := { api_key := some "k", webhook_url_warning := some "http://h/w" }

/-- A destination that accepts every POST with `204 No Content`. -/
def net204 : Net := fun _ _ => .resp 204 none

/-- A well-formed warning invocation carrying one titled embed. -/
def argsOk : Args :=
  { ow_path := some "/k/warning", embeds := some (.arr [.obj [("title", .str "disk")]]) }

/-- Claim C1: for every invocation in which no API_KEY secret is configured,
or the key extracted from the request path (the second-to-last segment of
the trimmed path) differs from the configured secret under string equality,
the handler responds 401 with error "Invalid or missing API key" and issues
no outbound forwarding call. -/
theorem c1_unauthenticated_401 (env : Env) (net : Net) (args : Args)
    (h : ∀ k, env.api_key = some k → (pathParts args).dropLast.getLast? ≠ some k) :
    (Relay.main env net args).1.statusCode = 401 ∧
    errorOf (Relay.main env net args).1 = some (.str "Invalid or missing API key") ∧
    (Relay.main env net args).2 = [] := by
  have hval : validate_api_key env (pathOf args) = false := by
    unfold validate_api_key
    cases henv : env.api_key with
    | none => rfl
    | some k =>
      have hk := h k henv
      dsimp only
      by_cases he : k = ""
      · simp [he]
      · rw [if_neg he]
        by_cases hlen : (pySplit (pyStrip (pathOf args))).length < 2
        · simp [hlen]
        · rw [if_neg hlen]
          exact decide_eq_false (by simpa [pathParts] using hk)
  have hmain : Relay.main env net args =
      (⟨401, .obj [("error", .str "Invalid or missing API key"),
        ("debug", if debugModeOf env then debugInfoOf args else .null)]⟩, []) := by
    unfold Relay.main mainBody
    rw [hval]
    simp
  rw [hmain]
  exact ⟨rfl, rfl, rfl⟩

/-- Witness for C1: no key is configured, so a request to `/x` is rejected
with 401 and nothing is forwarded. -/
theorem c1_unauthenticated_401_witness :
    (Relay.main {} net204 { ow_path := some "/x" }).1.statusCode = 401 ∧
    errorOf (Relay.main {} net204 { ow_path := some "/x" }).1 =
      some (.str "Invalid or missing API key") ∧
    (Relay.main {} net204 { ow_path := some "/x" }).2 = [] :=
  c1_unauthenticated_401 {} net204 { ow_path := some "/x" }
    (fun _ hk => Option.noConfusion hk)

theorem validate_false_of_short {env : Env} {path : String}
    (h : (pySplit (pyStrip path)).length < 2) :
    validate_api_key env path = false := by
  unfold validate_api_key
  cases env.api_key with
  | none => rfl
  | some k =>
    dsimp only
    by_cases hk : k = ""
    · simp [hk]
    · rw [if_neg hk, if_pos h]

theorem main_of_validate_false {env : Env} {net : Net} {args : Args}
    (hval : validate_api_key env (pathOf args) = false) :
    Relay.main env net args =
      (⟨401, .obj [("error", .str "Invalid or missing API key"),
        ("debug", if debugModeOf env then debugInfoOf args else .null)]⟩, []) := by
  unfold Relay.main mainBody
  rw [hval]
  simp

/-- Claim C10: the API key is read from the second-to-last slash-separated
segment of the trimmed path and the channel selector from the last segment,
so the accepted shape is `/<key>/<selector>` with possible leading
segments; every path with fewer than two segments after stripping slashes
is answered 401 regardless of configuration or body. -/
theorem c10_path_shape :
    (∀ (env : Env) (path : String),
      validate_api_key env path = true ↔
        ∃ k, env.api_key = some k ∧ k ≠ "" ∧
          2 ≤ (pySplit (pyStrip path)).length ∧
          (pySplit (pyStrip path)).dropLast.getLast? = some k) ∧
    (∀ (env : Env) (path : String), 2 ≤ (pySplit (pyStrip path)).length →
      get_webhook_url env path =
        (if (pySplit (pyStrip path)).getLast? = some "warning" then env.webhook_url_warning
         else if (pySplit (pyStrip path)).getLast? = some "critical" then env.webhook_url_critical
         else none)) ∧
    (∀ (env : Env) (net : Net) (args : Args),
      (pySplit (pyStrip (pathOf args))).length < 2 →
        (Relay.main env net args).1.statusCode = 401 ∧
        errorOf (Relay.main env net args).1 = some (.str "Invalid or missing API key") ∧
        (Relay.main env net args).2 = []) := by
  refine ⟨?_, ?_, ?_⟩
  · intro env path
    constructor
    · intro h
      have hlen := validate_api_key_length h
      unfold validate_api_key at h
      cases henv : env.api_key with
      | none => rw [henv] at h; exact absurd h (by simp)
      | some k =>
        rw [henv] at h
        dsimp only at h
        by_cases hk : k = ""
        · simp [hk] at h
        · rw [if_neg hk, if_neg (by omega : ¬(pySplit (pyStrip path)).length < 2)] at h
          exact ⟨k, rfl, hk, hlen, of_decide_eq_true h⟩
    · rintro ⟨k, henv, hk, hlen, heq⟩
      unfold validate_api_key
      rw [henv]
      dsimp only
      rw [if_neg hk, if_neg (by omega : ¬(pySplit (pyStrip path)).length < 2)]
      exact decide_eq_true heq
  · intro env path hlen
    unfold get_webhook_url
    rw [if_neg (by omega : ¬(pySplit (pyStrip path)).length < 2)]
    cases hlast : (pySplit (pyStrip path)).getLast? with
    | none => simp
    | some t =>
      dsimp only
      by_cases hw : t = "warning"
      · subst hw; simp
      · rw [if_neg hw, if_neg (by simp [hw] : ¬(some t = some "warning"))]
        by_cases hc : t = "critical"
        · subst hc; simp
        · rw [if_neg hc, if_neg (by simp [hc] : ¬(some t = some "critical"))]
  · intro env net args hshort
    rw [main_of_validate_false (validate_false_of_short hshort)]
    exact ⟨rfl, rfl, rfl⟩

/-- Witness for C10: the one-segment path `/onlyone` is rejected 401 even
with a configured key equal to that segment, and a two-segment path routes
on its last segment. -/
theorem c10_path_shape_witness :
    (Relay.main { api_key := some "onlyone" } net204 { ow_path := some "/onlyone" }).1.statusCode
        = 401 ∧
    errorOf (Relay.main { api_key := some "onlyone" } net204
        { ow_path := some "/onlyone" }).1 = some (.str "Invalid or missing API key") ∧
    (Relay.main { api_key := some "onlyone" } net204 { ow_path := some "/onlyone" }).2 = [] :=
  c10_path_shape.2.2 { api_key := some "onlyone" } net204 { ow_path := some "/onlyone" }
    (by decide)

theorem main_of_invalid_path {env : Env} {net : Net} {args : Args}
    (hauth : validate_api_key env (pathOf args) = true)
    (hfalsy : optStrTruthy (get_webhook_url env (pathOf args)) = false) :
    Relay.main env net args =
      (⟨400, .obj [("error", .str "Invalid webhook path"),
        ("debug", if debugModeOf env
          then setTopKey (debugInfoOf args) "webhook_url"
            (jsonOfOptStr (get_webhook_url env (pathOf args)))
          else .null)]⟩, []) := by
  unfold Relay.main mainBody
  rw [hauth]
  simp [hfalsy]

/-- Claim C2: for every authenticated invocation whose channel selector (the
last path segment) is neither "warning" nor "critical", or whose matched
destination URL variable is unset or empty, the handler responds 400 with
error "Invalid webhook path" and issues no outbound forwarding call. -/
theorem c2_invalid_path_400 (env : Env) (net : Net) (args : Args)
    (hauth : validate_api_key env (pathOf args) = true)
    (hsel :
      (∀ t, (pySplit (pyStrip (pathOf args))).getLast? = some t →
        t ≠ "warning" ∧ t ≠ "critical") ∨
      ((pySplit (pyStrip (pathOf args))).getLast? = some "warning" ∧
        optStrTruthy env.webhook_url_warning = false) ∨
      ((pySplit (pyStrip (pathOf args))).getLast? = some "critical" ∧
        optStrTruthy env.webhook_url_critical = false)) :
    (Relay.main env net args).1.statusCode = 400 ∧
    errorOf (Relay.main env net args).1 = some (.str "Invalid webhook path") ∧
    (Relay.main env net args).2 = [] := by
  have hlen := validate_api_key_length hauth
  have hfalsy : optStrTruthy (get_webhook_url env (pathOf args)) = false := by
    unfold get_webhook_url
    rw [if_neg (by omega : ¬(pySplit (pyStrip (pathOf args))).length < 2)]
    cases hlast : (pySplit (pyStrip (pathOf args))).getLast? with
    | none => rfl
    | some t =>
      dsimp only
      rcases hsel with hno | ⟨hw, hfw⟩ | ⟨hc, hfc⟩
      · obtain ⟨hnw, hnc⟩ := hno t hlast
        rw [if_neg hnw, if_neg hnc]
        rfl
      · rw [hlast] at hw
        injection hw with hw
        rw [if_pos hw]
        exact hfw
      · rw [hlast] at hc
        injection hc with hc
        rw [if_neg (by simp [hc]), if_pos hc]
        exact hfc
  rw [main_of_invalid_path hauth hfalsy]
  exact ⟨rfl, rfl, rfl⟩

/-- Witness for C2: the key is right, the selector is "warning", but no
warning destination URL is configured, so the invocation gets 400. -/
theorem c2_invalid_path_400_witness :
    (Relay.main { api_key := some "k" } net204 { ow_path := some "/k/warning" }).1.statusCode
        = 400 ∧
    errorOf (Relay.main { api_key := some "k" } net204
        { ow_path := some "/k/warning" }).1 = some (.str "Invalid webhook path") ∧
    (Relay.main { api_key := some "k" } net204 { ow_path := some "/k/warning" }).2 = [] :=
  c2_invalid_path_400 { api_key := some "k" } net204 { ow_path := some "/k/warning" }
    (by decide) (.inr (.inl (by decide)))

theorem setFirstEmbedColor_sets {body b : Json} {c : Int}
    (h : setFirstEmbedColor body c = .ok b) :
    firstEmbedColor b = some (.num c) := by
  unfold setFirstEmbedColor at h
  split at h <;> try exact Except.noConfusion h
  split at h <;> try exact Except.noConfusion h
  split at h <;> try exact Except.noConfusion h
  split at h <;> try exact Except.noConfusion h
  injection h with h
  subst h
  simp [firstEmbedColor, firstEmbedOf, getKey?_setKey_self, pyIndex]

/-- Claim C4: whenever the auto-color step runs with AUTO_COLORS enabled
(the default), the first embed of the assembled body ends up with its color
set to exactly 16776960 if the selector token is "warning" and 16711680
otherwise, regardless of any color the caller supplied and regardless of
whether the caller supplied an embed at all. -/
theorem c4_auto_color (env : Env) (args : Args) (sel : String) (b : Json)
    (hac : autoColorsOf env = true)
    (hbuild : buildBody (autoColorsOf env) sel args = .ok b) :
    firstEmbedColor b = some (.num (if sel = "warning" then 16776960 else 16711680)) := by
  rw [hac] at hbuild
  unfold buildBody at hbuild
  rw [if_pos rfl] at hbuild
  exact setFirstEmbedColor_sets hbuild

/-- Witness for C4: the caller supplied color 123; auto-coloring overwrites
it with the fixed warning color. -/
theorem c4_auto_color_witness :
    firstEmbedColor (.obj [("content", .null),
      ("embeds", .arr [.obj [("color", .num 16776960)]])]) = some (.num 16776960) :=
  c4_auto_color envOk
    { ow_path := some "/k/warning", embeds := some (.arr [.obj [("color", .num 123)]]) }
    "warning"
    (.obj [("content", .null), ("embeds", .arr [.obj [("color", .num 16776960)]])])
    rfl rfl

theorem main_of_missing_content {env : Env} {net : Net} {args : Args} {b : Json}
    (hauth : validate_api_key env (pathOf args) = true)
    (hurl : optStrTruthy (get_webhook_url env (pathOf args)) = true)
    (hbuild : buildBody (autoColorsOf env) (selectorOf args) args = .ok b)
    (hcontent : firstEmbedHasContent b = .ok false) :
    Relay.main env net args =
      (⟨400, .obj [("error",
        .str "Embed must contain at least one of the fields: title, description or fields")]⟩,
       []) := by
  unfold Relay.main mainBody
  rw [hauth]
  simp [hurl, hbuild, hcontent]

/-- Claim C3: an authenticated, correctly-routed invocation whose first
embed -- after defaulting an absent or falsy embeds list to a single empty
embed and after auto-coloring -- has no title, no description and an
absent, null or empty fields list is answered 400 with the missing-content
error; the color written by auto-coloring does not satisfy the check. -/
theorem c3_missing_content_400 (env : Env) (net : Net) (args : Args)
    (b : Json) (kvs : List (String × Json))
    (hauth : validate_api_key env (pathOf args) = true)
    (hurl : optStrTruthy (get_webhook_url env (pathOf args)) = true)
    (hbuild : buildBody (autoColorsOf env) (selectorOf args) args = .ok b)
    (hfirst : firstEmbedOf b = .ok (.obj kvs))
    (ht : getKey? kvs "title" = none ∨ getKey? kvs "title" = some .null)
    (hd : getKey? kvs "description" = none ∨ getKey? kvs "description" = some .null)
    (hf : getKey? kvs "fields" = none ∨ getKey? kvs "fields" = some .null ∨
      getKey? kvs "fields" = some (.arr [])) :
    (Relay.main env net args).1.statusCode = 400 ∧
    errorOf (Relay.main env net args).1 =
      some (.str "Embed must contain at least one of the fields: title, description or fields") ∧
    (Relay.main env net args).2 = [] := by
  have hcontent : firstEmbedHasContent b = .ok false := by
    unfold firstEmbedHasContent
    rw [hfirst]
    simp only [pyGet]
    rcases ht with ht | ht <;> rcases hd with hd | hd <;>
      rcases hf with hf | hf | hf <;>
      simp [ht, hd, hf, pyTruthy]
  rw [main_of_missing_content hauth hurl hbuild hcontent]
  exact ⟨rfl, rfl, rfl⟩

/-- Witness for C3 (the spec's scenario A): correct key, selector
"critical" routed, body content "db down" with empty embeds list,
AUTO_COLORS defaulted on; the generated single embed carries only the
auto color, so the handler answers the missing-content 400. -/
theorem c3_missing_content_400_witness :
    (Relay.main { api_key := some "k", webhook_url_critical := some "http://h/c" } net204
      { ow_path := some "/k/critical", content := some (.str "db down"),
        embeds := some (.arr []) }).1.statusCode = 400 ∧
    errorOf (Relay.main { api_key := some "k", webhook_url_critical := some "http://h/c" } net204
      { ow_path := some "/k/critical", content := some (.str "db down"),
        embeds := some (.arr []) }).1 =
      some (.str "Embed must contain at least one of the fields: title, description or fields") ∧
    (Relay.main { api_key := some "k", webhook_url_critical := some "http://h/c" } net204
      { ow_path := some "/k/critical", content := some (.str "db down"),
        embeds := some (.arr []) }).2 = [] :=
  c3_missing_content_400
    { api_key := some "k", webhook_url_critical := some "http://h/c" } net204
    { ow_path := some "/k/critical", content := some (.str "db down"),
      embeds := some (.arr []) }
    (.obj [("content", .str "db down"), ("embeds", .arr [.obj [("color", .num 16711680)]])])
    [("color", .num 16711680)]
    rfl rfl rfl rfl (.inl rfl) (.inl rfl) (.inl rfl)

/-- Claim C6: an invocation that passes authentication, destination
resolution, the content-presence check and schema validation, and whose
outbound POST completes with a 2xx status, issues exactly one outbound POST
of the dumped payload to the resolved URL and is answered 200 with the
success message and level naming the selector token. -/
theorem c6_success_200 (env : Env) (net : Net) (args : Args) (url : String)
    (b : Json) (w : DiscordWebhook) (st : Nat) (content : Option Json)
    (hauth : validate_api_key env (pathOf args) = true)
    (hurl : get_webhook_url env (pathOf args) = some url)
    (hne : url ≠ "")
    (hbuild : buildBody (autoColorsOf env) (selectorOf args) args = .ok b)
    (hcontent : firstEmbedHasContent b = .ok true)
    (hparse : parseWebhook b = .ok w)
    (hnet : net url (dumpWebhook w) = .resp st content)
    (h2xx : 200 ≤ st ∧ st < 300) :
    Relay.main env net args =
      (⟨200, .obj [
        ("message", .str ("Webhook successfully sent (" ++ selectorOf args ++ ")")),
        ("level", .str (selectorOf args))]⟩,
       [(url, dumpWebhook w)]) := by
  have htru : optStrTruthy (some url) = true := decide_eq_true hne
  have hlt : st < 400 := by omega
  unfold Relay.main mainBody
  rw [hauth]
  simp [htru, hurl, hbuild, hcontent, hparse, hnet, hlt]

/-- Witness for C6 (the spec's scenario B): warning invocation with a
titled embed; the destination answers 204 and the relay answers 200. -/
theorem c6_success_200_witness :
    Relay.main envOk net204 argsOk =
      (⟨200, .obj [
        ("message", .str ("Webhook successfully sent (" ++ selectorOf argsOk ++ ")")),
        ("level", .str (selectorOf argsOk))]⟩,
       [("http://h/w", dumpWebhook
         ⟨none, none, none, some false,
          some [⟨some "disk", none, none, some 16776960, none, none, none, none⟩]⟩)]) :=
  c6_success_200 envOk net204 argsOk "http://h/w"
    (.obj [("content", .null),
      ("embeds", .arr [.obj [("title", .str "disk"), ("color", .num 16776960)]])])
    ⟨none, none, none, some false,
     some [⟨some "disk", none, none, some 16776960, none, none, none, none⟩]⟩
    204 none
    rfl rfl (by decide) rfl rfl rfl rfl (by omega)

/-- A destination that always answers `304 Not Modified` with empty body. -/
def net304 : Net := fun _ _ => .resp 304 none

/-- Counterexample to C7 as stated: the destination completes the POST with
the non-2xx status 304, yet the relay does not carry 304 or any error --
it answers 200 success, because the source only enters the error branch
when `response.ok` is false, i.e. when the status is at least 400. -/
theorem c7_counterexample :
    net304 "http://h/w"
      (.obj [("tts", .bool false),
        ("embeds", .arr [.obj [("title", .str "disk"), ("color", .num 16776960)]])]) =
      .resp 304 none ∧
    Relay.main envOk net304 argsOk =
      (⟨200, .obj [
        ("message", .str "Webhook successfully sent (warning)"),
        ("level", .str "warning")]⟩,
       [("http://h/w",
         .obj [("tts", .bool false),
           ("embeds", .arr [.obj [("title", .str "disk"), ("color", .num 16776960)]])])]) :=
  ⟨rfl, rfl⟩

/-- Claim C7 as amended: for every invocation whose outbound POST completes
with a status of at least 400 (the statuses `requests` marks not-ok), the
relay's response carries the destination's status verbatim with error
"Discord returned an error: <status>" and a details field holding the
destination's JSON error body, or "No error details" when the destination
body was empty. -/
theorem c7_upstream_error (env : Env) (net : Net) (args : Args) (url : String)
    (b : Json) (w : DiscordWebhook) (st : Nat) (content : Option Json)
    (hauth : validate_api_key env (pathOf args) = true)
    (hurl : get_webhook_url env (pathOf args) = some url)
    (hne : url ≠ "")
    (hbuild : buildBody (autoColorsOf env) (selectorOf args) args = .ok b)
    (hcontent : firstEmbedHasContent b = .ok true)
    (hparse : parseWebhook b = .ok w)
    (hnet : net url (dumpWebhook w) = .resp st content)
    (hge : 400 ≤ st) :
    Relay.main env net args =
      (⟨st, .obj [
        ("error", .str ("Discord returned an error: " ++ toString st)),
        ("details", match content with
                    | none => Json.str "No error details"
                    | some j => j)]⟩,
       [(url, dumpWebhook w)]) := by
  have htru : optStrTruthy (some url) = true := decide_eq_true hne
  have hlt : ¬st < 400 := by omega
  cases content with
  | none =>
    unfold Relay.main mainBody
    rw [hauth]
    simp [htru, hurl, hbuild, hcontent, hparse, hnet, hlt]
  | some j =>
    unfold Relay.main mainBody
    rw [hauth]
    simp [htru, hurl, hbuild, hcontent, hparse, hnet, hlt]

/-- A destination that rejects every POST with 403 and a JSON error body. -/
def net403 : Net := fun _ _ => .resp 403 (some (.obj [("message", .str "forbidden")]))

/-- Witness for the amended C7 (the spec's scenario C): the destination
answers 403 with a JSON body, and the relay forwards status and details. -/
theorem c7_upstream_error_witness :
    Relay.main envOk net403 argsOk =
      (⟨403, .obj [
        ("error", .str ("Discord returned an error: " ++ toString 403)),
        ("details", .obj [("message", .str "forbidden")])]⟩,
       [("http://h/w", dumpWebhook
         ⟨none, none, none, some false,
          some [⟨some "disk", none, none, some 16776960, none, none, none, none⟩]⟩)]) :=
  c7_upstream_error envOk net403 argsOk "http://h/w"
    (.obj [("content", .null),
      ("embeds", .arr [.obj [("title", .str "disk"), ("color", .num 16776960)]])])
    ⟨none, none, none, some false,
     some [⟨some "disk", none, none, some 16776960, none, none, none, none⟩]⟩
    403 (some (.obj [("message", .str "forbidden")]))
    rfl rfl (by decide) rfl rfl rfl rfl (by omega)

/-- Field names declared on the `Embed` model (source lines 26-34). -/
def declaredEmbedKeys : List String :=
  ["title", "description", "url", "color", "fields", "footer", "image", "author"]

/-- Counterexample to C5 as stated: the first embed of this invocation
carries the key "bogus", which is outside the declared `Embed` schema, yet
validation succeeds, the payload is forwarded (with the unknown field
silently dropped) and the relay answers 200 -- because the `Embed` model,
unlike `DiscordWebhook`, declares no `extra = "forbid"` configuration, so
pydantic's default of ignoring unknown fields applies. -/
theorem c5_counterexample :
    ("bogus" ∈ declaredEmbedKeys) = False ∧
    Relay.main envOk net204
      { ow_path := some "/k/warning",
        embeds := some (.arr [.obj [("title", .str "t"), ("bogus", .num 1)]]) } =
      (⟨200, .obj [
        ("message", .str "Webhook successfully sent (warning)"),
        ("level", .str "warning")]⟩,
       [("http://h/w",
         .obj [("tts", .bool false),
           ("embeds", .arr [.obj [("title", .str "t"), ("color", .num 16776960)]])])]) :=
  ⟨by simp [declaredEmbedKeys], rfl⟩

/-- Claim C5 as amended: schema strictness holds at the top level only --
any top-level key outside the declared `DiscordWebhook` schema makes
validation fail, and whenever validation of the assembled body fails on an
authenticated, routed invocation with embed content present, the handler
answers 400 with an error beginning "Validation error: " and issues no
outbound call.  Unknown keys inside nested embed objects are ignored, not
rejected. -/
theorem c5_schema_strictness :
    (∀ (kvs : List (String × Json)) (k : String) (v : Json),
      (k, v) ∈ kvs → k ∉ allowedTopKeys →
        ∃ msg, parseWebhook (.obj kvs) = .error msg) ∧
    (∀ (env : Env) (net : Net) (args : Args) (b : Json) (msg : String),
      validate_api_key env (pathOf args) = true →
      optStrTruthy (get_webhook_url env (pathOf args)) = true →
      buildBody (autoColorsOf env) (selectorOf args) args = .ok b →
      firstEmbedHasContent b = .ok true →
      parseWebhook b = .error msg →
        (Relay.main env net args).1.statusCode = 400 ∧
        errorOf (Relay.main env net args).1 = some (.str ("Validation error: " ++ msg)) ∧
        (Relay.main env net args).2 = []) := by
  constructor
  · intro kvs k v hmem hnot
    have hall : ¬kvs.all (fun kv => allowedTopKeys.contains kv.1) = true := by
      intro hall
      have := List.all_eq_true.mp hall (k, v) hmem
      exact hnot (by simpa using this)
    unfold parseWebhook
    dsimp only
    rw [if_neg hall]
    exact ⟨_, rfl⟩
  · intro env net args b msg hauth hurl hbuild hcontent hparse
    have hmain : Relay.main env net args =
        (⟨400, .obj [("error", .str ("Validation error: " ++ msg))]⟩, []) := by
      unfold Relay.main mainBody
      rw [hauth]
      simp [hurl, hbuild, hcontent, hparse]
    rw [hmain]
    exact ⟨rfl, rfl, rfl⟩

/-- Witness for the amended C5: a top-level unknown key "foo" fails
validation, and a run whose embed title has the wrong type is answered
400 with the validation error. -/
theorem c5_schema_strictness_witness :
    (∃ msg, parseWebhook (.obj [("foo", .num 1)]) = .error msg) ∧
    ((Relay.main envOk net204
        { ow_path := some "/k/warning",
          embeds := some (.arr [.obj [("title", .num 5)]]) }).1.statusCode = 400 ∧
     errorOf (Relay.main envOk net204
        { ow_path := some "/k/warning",
          embeds := some (.arr [.obj [("title", .num 5)]]) }).1 =
       some (.str ("Validation error: " ++ "str type expected")) ∧
     (Relay.main envOk net204
        { ow_path := some "/k/warning",
          embeds := some (.arr [.obj [("title", .num 5)]]) }).2 = []) :=
  ⟨c5_schema_strictness.1 [("foo", .num 1)] "foo" (.num 1) (by simp)
      (by simp [allowedTopKeys]),
   c5_schema_strictness.2 envOk net204
     { ow_path := some "/k/warning", embeds := some (.arr [.obj [("title", .num 5)]]) }
     (.obj [("content", .null),
       ("embeds", .arr [.obj [("title", .num 5), ("color", .num 16776960)]])])
     "str type expected"
     rfl rfl rfl rfl rfl⟩

/-- A response whose body is a JSON object carrying a string `error` or a
string `message`, as the response contract requires. -/
def wellFormedResponse (r : Response) : Prop :=
  ∃ kvs, r.body = .obj kvs ∧
    ((∃ s, getKey? kvs "error" = some (.str s)) ∨
     (∃ s, getKey? kvs "message" = some (.str s)))

theorem mainBody_ok_wellFormed {env : Env} {net : Net} {args : Args}
    {r : Response} {tr : List Post}
    (h : mainBody env net args = .ok (r, tr)) : wellFormedResponse r := by
  unfold mainBody at h
  dsimp only at h
  repeat' split at h
  all_goals try exact Except.noConfusion h
  all_goals
    injection h with h
  all_goals
    injection h with h1 h2
  all_goals
    subst h1
  all_goals
    exact ⟨_, rfl, by first
      | exact Or.inl ⟨_, rfl⟩
      | exact Or.inr ⟨_, rfl⟩⟩

/-- Claim C8: the handler is total -- every invocation produces a response
whose body is a JSON object with a string `error` or `message` field, and
any fault the pipeline raises that no earlier branch handled is converted
by the outermost handler into status 500 with error
"Internal server error: <details>" (and no outbound call is recorded,
since every modelled fault precedes the POST). -/
theorem c8_total (env : Env) (net : Net) (args : Args) :
    wellFormedResponse (Relay.main env net args).1 ∧
    (∀ e, mainBody env net args = .error e →
      Relay.main env net args =
        (⟨500, .obj [("error", .str ("Internal server error: " ++ e))]⟩, [])) := by
  constructor
  · cases hm : mainBody env net args with
    | error e =>
      unfold Relay.main
      rw [hm]
      exact ⟨_, rfl, Or.inl ⟨_, rfl⟩⟩
    | ok p =>
      obtain ⟨r, tr⟩ := p
      have hw := mainBody_ok_wellFormed hm
      unfold Relay.main
      rw [hm]
      exact hw
  · intro e he
    unfold Relay.main
    rw [he]

/-- Witness for C8: an `embeds` value that is a bare number makes the
auto-color subscript raise, and the catch-all converts the fault to 500. -/
theorem c8_total_witness :
    Relay.main envOk net204 { ow_path := some "/k/warning", embeds := some (.num 5) } =
      (⟨500, .obj [("error",
        .str ("Internal server error: " ++ "TypeError: object is not subscriptable"))]⟩,
       []) :=
  (c8_total envOk net204 { ow_path := some "/k/warning", embeds := some (.num 5) }).2
    "TypeError: object is not subscriptable" rfl

theorem getKey?_setKey_ne (l : List (String × Json)) (k k' : String) (v : Json)
    (h : ¬k = k') :
    getKey? (setKey l k v) k' = getKey? l k' := by
  induction l with
  | nil => simp [setKey, getKey?, h]
  | cons kv rest ih =>
    obtain ⟨k0, w⟩ := kv
    by_cases h0 : k0 = k
    · subst h0
      simp [setKey, getKey?, h]
    · simp [setKey, getKey?, h0, ih]

/-- An environment that enables debug mode next to a configured secret. -/
def envC9 : Env := { api_key := some "sec", debug_mode := some "true" }

/-- Counterexample to C9 as stated: with DEBUG_MODE on, a caller that
supplies the correct key "sec" but an unknown selector receives the 400
failure response whose debug object's `api_key_from_path` field is exactly
the configured secret -- the debug object does contain the secret value on
a failure response reachable with the correct key. -/
theorem c9_counterexample :
    envC9.api_key = some "sec" ∧
    Relay.main envC9 net204 { ow_path := some "/sec/bogus" } =
      (⟨400, .obj [
        ("error", .str "Invalid webhook path"),
        ("debug", .obj [
          ("original_path", .str "sec/bogus"),
          ("path_parts", .arr [.str "sec", .str "bogus"]),
          ("api_key_from_path", .str "sec"),
          ("webhook_type", .str "bogus"),
          ("expected_api_key", .null),
          ("webhook_url", .null)])]⟩, []) ∧
    getKey? [
      ("original_path", Json.str "sec/bogus"),
      ("path_parts", .arr [.str "sec", .str "bogus"]),
      ("api_key_from_path", .str "sec"),
      ("webhook_type", .str "bogus"),
      ("expected_api_key", .null),
      ("webhook_url", .null)] "api_key_from_path" = some (.str "sec") :=
  ⟨rfl, rfl, rfl⟩

/-- Claim C9 as amended: the debug object attached to a failure response
never reveals the secret as read from the configuration -- its
`expected_api_key` field is always null (the source comments the
environment read out).  The object does echo the caller-supplied
`api_key_from_path`, which coincides with the secret exactly when the
caller already supplied the correct key. -/
theorem c9_debug_no_secret (env : Env) (net : Net) (args : Args)
    (kvs dbg : List (String × Json))
    (hbody : (Relay.main env net args).1.body = .obj kvs)
    (hdbg : getKey? kvs "debug" = some (.obj dbg)) :
    getKey? dbg "expected_api_key" = some Json.null := by
  unfold Relay.main at hbody
  cases hm : mainBody env net args with
  | error e =>
    rw [hm] at hbody
    dsimp only at hbody
    injection hbody with hkvs
    subst hkvs
    exact absurd hdbg (by simp [getKey?])
  | ok p =>
    obtain ⟨r, tr⟩ := p
    rw [hm] at hbody
    dsimp only at hbody
    unfold mainBody at hm
    dsimp only at hm
    repeat' split at hm
    all_goals try exact Except.noConfusion hm
    all_goals
      injection hm with hm
    all_goals
      injection hm with h1 h2
    all_goals
      subst h1
    all_goals
      dsimp only at hbody
    all_goals
      injection hbody with hkvs
    all_goals
      subst hkvs
    all_goals try simp [getKey?] at hdbg
    · -- invalid-path 400 with debug on: the mutated debug dict
      unfold setTopKey debugInfoOf at hdbg
      dsimp only at hdbg
      injection hdbg with hd
      subst hd
      rw [getKey?_setKey_ne _ _ _ _ (by decide)]
      rfl
    · -- 401 with debug on: the original debug dict
      unfold debugInfoOf at hdbg
      injection hdbg with hd
      subst hd
      rfl

/-- Witness for the amended C9: a debug-enabled 401 carries a debug object
whose `expected_api_key` is null. -/
theorem c9_debug_no_secret_witness :
    getKey? [
      ("original_path", Json.str "a/b"),
      ("path_parts", .arr [.str "a", .str "b"]),
      ("api_key_from_path", .str "a"),
      ("webhook_type", .str "b"),
      ("expected_api_key", .null),
      ("webhook_url", .null)] "expected_api_key" = some Json.null :=
  c9_debug_no_secret { debug_mode := some "true" } net204 { ow_path := some "/a/b" }
    [("error", .str "Invalid or missing API key"),
     ("debug", .obj [
       ("original_path", .str "a/b"),
       ("path_parts", .arr [.str "a", .str "b"]),
       ("api_key_from_path", .str "a"),
       ("webhook_type", .str "b"),
       ("expected_api_key", .null),
       ("webhook_url", .null)])]
    [("original_path", .str "a/b"),
     ("path_parts", .arr [.str "a", .str "b"]),
     ("api_key_from_path", .str "a"),
     ("webhook_type", .str "b"),
     ("expected_api_key", .null),
     ("webhook_url", .null)]
    rfl rfl
